import Mathlib

/-!
Shallow embedding of the AIS forwarding daemon dispatcher
(`src/ais-forwarder/src/main.rs`).

Wall-clock (`SystemTime`) and monotonic (`Instant`) times are modelled as
natural numbers of nanoseconds since their respective epochs;
`Duration::as_secs` is truncating division by `NANOS`.  Geographic
coordinates (`f64` in the source) are modelled as rationals.  The NMEA
parser is treated as a black box: each input line arrives together with its
parse outcome, exactly as `Dispatcher::work` consumes it.
-/

namespace AisForwarder

/-- Nanoseconds per second: the granularity of `SystemTime` and `Instant`. -/
def NANOS : Nat := 1000000000

/-- `struct LastSent` (`main.rs` 24-27): per-MMSI record of the last
`Instant` each message category was forwarded. -/
structure LastSent where
  vessel_dynamic_data : Nat
  vessel_static_data : Nat
  deriving DecidableEq, Repr

/-- The fields of the `nmea_parser` type `VesselDynamicData` that the dispatcher
reads: `mmsi`, optional position, and the `own_vessel` flag. -/
structure VesselDynamicData where
  mmsi : Nat
  latitude : Option ℚ
  longitude : Option ℚ
  own_vessel : Bool
  deriving DecidableEq, Repr

/-- The fields of the `nmea_parser` type `VesselStaticData` that the dispatcher
reads: only `mmsi` (static data carries no position). -/
structure VesselStaticData where
  mmsi : Nat
  deriving DecidableEq, Repr

/-- The fields of the `nmea_parser` type `RmcData` that the dispatcher reads. -/
structure RmcData where
  latitude : Option ℚ
  longitude : Option ℚ
  deriving DecidableEq, Repr

/-- The `nmea_parser::ParsedMessage` variants that `Dispatcher::work`
distinguishes; every other decodable variant falls into `Other`
(the `_` arm at `main.rs` 314). -/
inductive ParsedMessage where
  | VesselDynamicData (data : VesselDynamicData)
  | VesselStaticData (data : VesselStaticData)
  | Rmc (data : RmcData)
  | Incomplete
  | Other
  deriving DecidableEq, Repr

/-- `Dispatcher::check_last_sent` (`main.rs` 368-421): the rate limiter.
The `HashMap<u32, LastSent>` is modelled as `Nat → Option LastSent`.
Returns the `bool` the source returns together with the updated table;
`entry(..).or_insert(..)` inserts the (backdated) record even when the
message turns out not to be eligible.  `inow` is `Instant::now()`;
`Instant::duration_since` saturates at zero, matching truncating `Nat`
subtraction. -/
def check_last_sent (interval inow : Nat) (table : Nat → Option LastSent)
    (message : ParsedMessage) : Bool × (Nat → Option LastSent) :=
  match message with
  | .VesselDynamicData data =>
      let elapsed := inow - interval * NANOS
      let last_sent := (table data.mmsi).getD ⟨elapsed, elapsed⟩
      let elapsed_secs := (inow - last_sent.vessel_dynamic_data) / NANOS
      if interval ≤ elapsed_secs then
        (true, fun k => if k = data.mmsi then
          some { last_sent with vessel_dynamic_data := inow } else table k)
      else
        (false, fun k => if k = data.mmsi then some last_sent else table k)
  | .VesselStaticData data =>
      let elapsed := inow - interval * NANOS
      let last_sent := (table data.mmsi).getD ⟨elapsed, elapsed⟩
      let elapsed_secs := (inow - last_sent.vessel_static_data) / NANOS
      if interval ≤ elapsed_secs then
        (true, fun k => if k = data.mmsi then
          some { last_sent with vessel_static_data := inow } else table k)
      else
        (false, fun k => if k = data.mmsi then some last_sent else table k)
  | _ => (false, table)

/-- `Dispatcher::next_location_system_time` (`main.rs` 247-255): the next
regular-interval deadline, in nanoseconds since the Unix epoch. -/
def next_location_system_time (location_interval now : Nat) : Nat :=
  let next_instant := now + location_interval * NANOS
  let next_instant_secs := next_instant / NANOS
  let floored := next_instant_secs - next_instant_secs % location_interval
  floored * NANOS

/-- `Dispatcher::next_location_anchor_system_time` (`main.rs` 256-265). -/
def next_location_anchor_system_time (location_anchor_interval now : Nat) : Nat :=
  let next_instant := now + location_anchor_interval * NANOS
  let next_instant_secs := next_instant / NANOS
  let floored := next_instant_secs - next_instant_secs % location_anchor_interval
  floored * NANOS

/-- `next_location_system_time` with the Rust abort made explicit: the
source computes `next_instant_secs % self.location_interval`, and `u64 % 0`
panics, so with `location_interval = 0` the call aborts instead of
returning a deadline; the panic is modelled as `none`. -/
def next_location_system_time_checked (location_interval now : Nat) : Option Nat :=
  if location_interval = 0 then none
  else some (next_location_system_time location_interval now)

/-- `next_location_anchor_system_time` with the `u64 % 0` panic modelled as
`none`, as in `next_location_system_time_checked`. -/
def next_location_anchor_system_time_checked (location_anchor_interval now : Nat) :
    Option Nat :=
  if location_anchor_interval = 0 then none
  else some (next_location_anchor_system_time location_anchor_interval now)

/-- `is_moving` (`main.rs` 424-429); `f64` coordinates modelled as
rationals, the literal `0.001` as `1 / 1000`. -/
def is_moving (lat long prev_lat prev_long : ℚ) : Bool :=
  let lat_diff := |lat - prev_lat|
  let long_diff := |long - prev_long|
  decide (lat_diff > 1 / 1000) || decide (long_diff > 1 / 1000)

/-- The attribution match in `Dispatcher::work` (`main.rs` 300-314):
computes the `(own_vessel, lat, long)` triple for a parsed message together
with the updated `last_seen_rmc_message` (set to `now` by the `Rmc` arm).
`RMC_MESSAGE_TIMEOUT` is 30 seconds. -/
def classify_message (last_seen_rmc_message now : Nat) (pm : ParsedMessage) :
    Option Bool × Option ℚ × Option ℚ × Nat :=
  match pm with
  | .VesselDynamicData data =>
      (some (decide (now < last_seen_rmc_message + 30 * NANOS) && data.own_vessel),
        data.latitude, data.longitude, last_seen_rmc_message)
  | .VesselStaticData _ => (some false, none, none, last_seen_rmc_message)
  | .Rmc data => (some true, data.latitude, data.longitude, now)
  | _ => (none, none, none, last_seen_rmc_message)

/-- The mutable state of `Dispatcher::work` together with the dispatcher
fields it reads and writes (`main.rs` 29-39 and 276-282). -/
structure WorkState where
  fragments : List String
  last_seen_rmc_message : Nat
  prev_lat : ℚ
  prev_long : ℚ
  next_location_ts : Nat
  next_location_anchor_ts : Nat
  last_sent : Nat → Option LastSent
  last_sent_location : Nat

/-- The configuration values the dispatcher consumes (`main.rs` 33-35). -/
structure Config where
  interval : Nat
  location_interval : Nat
  location_anchor_interval : Nat
  deriving DecidableEq, Repr

/-- Result of processing one input line in `Dispatcher::work`: the new
state, the raw bytes handed to `broadcast_ais` (when the rate limiter
returned `true`), and the message sent on `location_tx` (when the cadence
rule fired). -/
structure StepResult where
  state : WorkState
  broadcast : Option String
  location : Option ParsedMessage

/-- The body of the `if let (Some(own_vessel), lat, long)` block in
`Dispatcher::work` (`main.rs` 315-350), factored out of `work_step`:
`own_vessel`, `olat`, `olong` and `rmc` are the components the attribution
match produced for the parsed message `pm`.  Note that
`fragments.push(line)` and the trailing `fragments.clear()` sit inside this
block, so they run only for the three attributed variants. -/
def classified_step (cfg : Config) (s : WorkState) (line : String) (pm : ParsedMessage)
    (own_vessel : Bool) (olat olong : Option ℚ) (rmc now inow : Nat) : StepResult :=
  let fragments := s.fragments ++ [line]
  let s1 := { s with last_seen_rmc_message := rmc }
  match olat, olong with
  | some lat, some long =>
      if lat ≠ 0 ∨ long ≠ 0 then
        let checked := check_last_sent cfg.interval inow s1.last_sent pm
        let s2 := { s1 with last_sent := checked.2 }
        let raw := if checked.1 then some (String.join fragments) else none
        if own_vessel ∧ (s2.next_location_anchor_ts ≤ now ∨
            (s2.next_location_ts ≤ now ∧
              is_moving lat long s2.prev_lat s2.prev_long)) then
          { state :=
              { s2 with
                fragments := [],
                prev_lat := lat, prev_long := long,
                last_sent_location := now,
                next_location_ts :=
                  next_location_system_time cfg.location_interval now,
                next_location_anchor_ts :=
                  next_location_anchor_system_time cfg.location_anchor_interval now },
            broadcast := raw, location := some pm }
        else
          { state := { s2 with fragments := [] }, broadcast := raw,
            location := none }
      else
        { state := { s1 with fragments := [] }, broadcast := none,
          location := none }
  | _, _ =>
      { state := { s1 with fragments := [] }, broadcast := none,
        location := none }

/-- One iteration of the `for line in message.lines()` body of
`Dispatcher::work` (`main.rs` 289-356).  The NMEA parser is a black box, so
the parse outcome of `line` is an input: `parsed` stands for
`self.nmea_parser.parse_sentence(line)`.  `now` is the `SystemTime::now()`
taken at line 298 and `inow` the monotonic `Instant::now()` taken inside
`check_last_sent`. -/
def work_step (cfg : Config) (s : WorkState) (line : String)
    (parsed : Except Unit ParsedMessage) (now inow : Nat) : StepResult :=
  match parsed with
  | .error _ =>
      { state := { s with fragments := [] }, broadcast := none, location := none }
  | .ok pm =>
      if pm = ParsedMessage.Incomplete then
        { state := { s with fragments := s.fragments ++ [line] }, broadcast := none,
          location := none }
      else
        match classify_message s.last_seen_rmc_message now pm with
        | (none, _, _, rmc) =>
            { state := { s with last_seen_rmc_message := rmc }, broadcast := none,
              location := none }
        | (some own_vessel, olat, olong, rmc) =>
            classified_step cfg s line pm own_vessel olat olong rmc now inow

/-- `Dispatcher::broadcast_ais` (`main.rs` 360-366).  The endpoint list is
the iteration order of `self.ais`, each name paired with whether
`send_message` succeeds for it on this call.  Returns the endpoints
actually attempted, in order, and the value the `?` operator propagates:
the `for` loop stops at the first failing endpoint. -/
def broadcast_ais (endpoints : List (String × Bool)) :
    List String × Except String Unit :=
  match endpoints with
  | [] => ([], Except.ok ())
  | (key, ok) :: rest =>
      if ok then
        let r := broadcast_ais rest
        (key :: r.1, r.2)
      else
        ([key], Except.error key)

/-- Processing of one line in `Dispatcher::work` including the
`self.broadcast_ais(..)?` at `main.rs` 322-325: when the fan-out fails, the
error propagates out of `work` and terminates the dispatch loop (the caller
in `main` then discards the whole dispatcher, pauses one second and rebuilds
it). -/
def dispatch_line (cfg : Config) (endpoints : List (String × Bool)) (s : WorkState)
    (line : String) (parsed : Except Unit ParsedMessage) (now inow : Nat) :
    Except String (WorkState × Option ParsedMessage × List String) :=
  let r := work_step cfg s line parsed now inow
  match r.broadcast with
  | none => Except.ok (r.state, r.location, [])
  | some _ =>
      match broadcast_ais endpoints with
      | (attempted, Except.ok _) => Except.ok (r.state, r.location, attempted)
      | (_, Except.error e) => Except.error e

/-- The empty rate-limiter table, as after `Dispatcher::new`. -/
def empty_table : Nat → Option LastSent := fun _ => none

/-- Spec-side emission rule, written from the words of the specification for
comparison with `work_step`: emit iff a valid (non-(0,0)) own-vessel
position is processed and now is past the anchor deadline, or past the
regular deadline with the vessel judged moving — moving meaning the
absolute change in latitude or longitude relative to the last emitted
position exceeds 0.001 degree in either axis. -/
def emission_expected (s : WorkState) (own : Option Bool) (olat olong : Option ℚ)
    (now : Nat) : Bool :=
  match own, olat, olong with
  | some true, some lat, some long =>
      (decide (lat ≠ 0) || decide (long ≠ 0)) &&
      (decide (s.next_location_anchor_ts ≤ now) ||
        (decide (s.next_location_ts ≤ now) &&
          (decide (|lat - s.prev_lat| > 1 / 1000) ||
            decide (|long - s.prev_long| > 1 / 1000))))
  | _, _, _ => false

/-- A concrete dispatcher state: one buffered fragment, empty rate-limiter
table, both deadlines in the past, own vessel previously at the origin. -/
def sample_state : WorkState where
  fragments := ["!AIVDM,2,1,frag"]
  last_seen_rmc_message := 0
  prev_lat := 0
  prev_long := 0
  next_location_ts := 0
  next_location_anchor_ts := 0
  last_sent := empty_table
  last_sent_location := 0

/-- A concrete configuration: the defaults of `main` (interval 60 s,
location interval 600 s, anchor interval 86400 s). -/
def cfg0 : Config where
  interval := 60
  location_interval := 600
  location_anchor_interval := 86400

/-- A concrete rate-limiter table holding one record for MMSI 5. -/
def sample_table : Nat → Option LastSent :=
  fun k => if k = 5 then some ⟨40 * NANOS, 50 * NANOS⟩ else none

/-- A concrete dynamic-data message for MMSI 7 at position (1, 2), not
flagged own-vessel. -/
def sample_dyn : ParsedMessage :=
  .VesselDynamicData ⟨7, some 1, some 2, false⟩

/-- A concrete RMC fix at position (1, 2). -/
def sample_rmc : ParsedMessage := .Rmc ⟨some 1, some 2⟩

/-- Two dynamic-data messages for a fresh MMSI, 59 seconds apart, with
interval 60: the pair of rate-limiter verdicts the code produces. -/
def two_dynamic_59s_apart : Bool × Bool :=
  let t0 := 1000 * NANOS
  let r1 := check_last_sent 60 t0 empty_table sample_dyn
  let r2 := check_last_sent 60 (t0 + 59 * NANOS) r1.2 sample_dyn
  (r1.1, r2.1)

/-- Two dynamic-data messages for a fresh MMSI, 61 seconds apart, with
interval 60: the pair of rate-limiter verdicts the code produces. -/
def two_dynamic_61s_apart : Bool × Bool :=
  let t0 := 1000 * NANOS
  let r1 := check_last_sent 60 t0 empty_table sample_dyn
  let r2 := check_last_sent 60 (t0 + 61 * NANOS) r1.2 sample_dyn
  (r1.1, r2.1)

/-- The record that `entry(mmsi).or_insert(..)` yields in
`check_last_sent`: the existing record for the MMSI, or a fresh one with
both timestamps backdated by one configured interval. -/
def lookup_or_backdate (interval inow : Nat) (table : Nat → Option LastSent)
    (mmsi : Nat) : LastSent :=
  (table mmsi).getD ⟨inow - interval * NANOS, inow - interval * NANOS⟩

/-! Helper lemmas -/

theorem div_nanos_add (a i : Nat) : (a + i * NANOS) / NANOS = a / NANOS + i :=
  Nat.add_mul_div_right a i (by decide)

theorem nanos_mul_div (a : Nat) : a * NANOS / NANOS = a :=
  Nat.mul_div_cancel a (by decide)

theorem floor_to_grid_mod (n i : Nat) : (n - n % i) % i = 0 := by
  have h := Nat.div_add_mod n i
  have h2 : n - n % i = i * (n / i) := by omega
  rw [h2, Nat.mul_mod_right]

theorem next_location_system_time_eq (i n : Nat) :
    next_location_system_time i n = ((n / NANOS + i) - (n / NANOS + i) % i) * NANOS := by
  show ((n + i * NANOS) / NANOS - (n + i * NANOS) / NANOS % i) * NANOS =
    ((n / NANOS + i) - (n / NANOS + i) % i) * NANOS
  rw [div_nanos_add]

theorem next_location_anchor_system_time_eq (i n : Nat) :
    next_location_anchor_system_time i n =
      ((n / NANOS + i) - (n / NANOS + i) % i) * NANOS := by
  show ((n + i * NANOS) / NANOS - (n + i * NANOS) / NANOS % i) * NANOS =
    ((n / NANOS + i) - (n / NANOS + i) % i) * NANOS
  rw [div_nanos_add]

theorem interval_le_div_nanos_iff (interval x : Nat) :
    interval ≤ x / NANOS ↔ interval * NANOS ≤ x :=
  Nat.le_div_iff_mul_le (by decide)

theorem check_last_sent_dynamic_eq (interval inow : Nat)
    (table : Nat → Option LastSent) (d : VesselDynamicData) :
    check_last_sent interval inow table (.VesselDynamicData d) =
      (decide (interval ≤
          (inow - (lookup_or_backdate interval inow table d.mmsi).vessel_dynamic_data)
            / NANOS),
        fun k => if k = d.mmsi then
          some { lookup_or_backdate interval inow table d.mmsi with
            vessel_dynamic_data :=
              if interval ≤
                  (inow - (lookup_or_backdate interval inow table d.mmsi).vessel_dynamic_data)
                    / NANOS then inow
              else (lookup_or_backdate interval inow table d.mmsi).vessel_dynamic_data }
        else table k) := by
  simp only [check_last_sent, lookup_or_backdate]
  by_cases hc : interval ≤
      (inow - ((table d.mmsi).getD
        ⟨inow - interval * NANOS, inow - interval * NANOS⟩).vessel_dynamic_data) / NANOS <;>
    simp [hc]

theorem check_last_sent_static_eq (interval inow : Nat)
    (table : Nat → Option LastSent) (sd : VesselStaticData) :
    check_last_sent interval inow table (.VesselStaticData sd) =
      (decide (interval ≤
          (inow - (lookup_or_backdate interval inow table sd.mmsi).vessel_static_data)
            / NANOS),
        fun k => if k = sd.mmsi then
          some { lookup_or_backdate interval inow table sd.mmsi with
            vessel_static_data :=
              if interval ≤
                  (inow - (lookup_or_backdate interval inow table sd.mmsi).vessel_static_data)
                    / NANOS then inow
              else (lookup_or_backdate interval inow table sd.mmsi).vessel_static_data }
        else table k) := by
  simp only [check_last_sent, lookup_or_backdate]
  by_cases hc : interval ≤
      (inow - ((table sd.mmsi).getD
        ⟨inow - interval * NANOS, inow - interval * NANOS⟩).vessel_static_data) / NANOS <;>
    simp [hc]

theorem work_step_error_eq (cfg : Config) (s : WorkState) (line : String) (e : Unit)
    (now inow : Nat) :
    work_step cfg s line (.error e) now inow =
      ⟨{ s with fragments := [] }, none, none⟩ := rfl

theorem work_step_incomplete_eq (cfg : Config) (s : WorkState) (line : String)
    (now inow : Nat) :
    work_step cfg s line (.ok .Incomplete) now inow =
      ⟨{ s with fragments := s.fragments ++ [line] }, none, none⟩ := rfl

theorem work_step_other_eq (cfg : Config) (s : WorkState) (line : String)
    (now inow : Nat) :
    work_step cfg s line (.ok .Other) now inow = ⟨s, none, none⟩ := rfl

theorem work_step_dynamic_eq (cfg : Config) (s : WorkState) (line : String)
    (d : VesselDynamicData) (now inow : Nat) :
    work_step cfg s line (.ok (.VesselDynamicData d)) now inow =
      classified_step cfg s line (.VesselDynamicData d)
        (decide (now < s.last_seen_rmc_message + 30 * NANOS) && d.own_vessel)
        d.latitude d.longitude s.last_seen_rmc_message now inow := rfl

theorem work_step_static_eq (cfg : Config) (s : WorkState) (line : String)
    (sd : VesselStaticData) (now inow : Nat) :
    work_step cfg s line (.ok (.VesselStaticData sd)) now inow =
      classified_step cfg s line (.VesselStaticData sd) false none none
        s.last_seen_rmc_message now inow := rfl

theorem work_step_rmc_eq (cfg : Config) (s : WorkState) (line : String)
    (r : RmcData) (now inow : Nat) :
    work_step cfg s line (.ok (.Rmc r)) now inow =
      classified_step cfg s line (.Rmc r) true r.latitude r.longitude now now inow := rfl

theorem classified_step_fragments_empty (cfg : Config) (s : WorkState) (line : String)
    (pm : ParsedMessage) (b : Bool) (olat olong : Option ℚ) (rmc now inow : Nat) :
    (classified_step cfg s line pm b olat olong rmc now inow).state.fragments = [] := by
  rcases olat with _ | lat <;> rcases olong with _ | long <;>
    first
      | rfl
      | (simp only [classified_step]
         split_ifs <;> rfl)

theorem classified_step_broadcast_shape (cfg : Config) (s : WorkState) (line : String)
    (pm : ParsedMessage) (b : Bool) (olat olong : Option ℚ) (rmc now inow : Nat) :
    (classified_step cfg s line pm b olat olong rmc now inow).broadcast = none
    ∨ (classified_step cfg s line pm b olat olong rmc now inow).broadcast =
        some (String.join (s.fragments ++ [line])) := by
  rcases olat with _ | lat <;> rcases olong with _ | long <;>
    first
      | exact Or.inl rfl
      | (simp only [classified_step]
         split_ifs <;> simp)

theorem classified_step_no_position (cfg : Config) (s : WorkState) (line : String)
    (pm : ParsedMessage) (b : Bool) (olat olong : Option ℚ) (rmc now inow : Nat)
    (h : olat = none ∨ olong = none ∨ (olat = some 0 ∧ olong = some 0)) :
    (classified_step cfg s line pm b olat olong rmc now inow).broadcast = none
    ∧ (classified_step cfg s line pm b olat olong rmc now inow).location = none
    ∧ (classified_step cfg s line pm b olat olong rmc now inow).state.last_sent =
        s.last_sent := by
  rcases olat with _ | lat
  · exact ⟨rfl, rfl, rfl⟩
  rcases olong with _ | long
  · exact ⟨rfl, rfl, rfl⟩
  rcases h with h | h | ⟨h1, h2⟩
  · exact absurd h (by simp)
  · exact absurd h (by simp)
  · simp only [Option.some.injEq] at h1 h2
    subst h1
    subst h2
    simp only [classified_step]
    rw [if_neg (by simp)]
    exact ⟨rfl, rfl, rfl⟩

theorem classified_step_position_broadcast (cfg : Config) (s : WorkState) (line : String)
    (pm : ParsedMessage) (b : Bool) (lat long : ℚ) (rmc now inow : Nat)
    (h : lat ≠ 0 ∨ long ≠ 0) :
    (classified_step cfg s line pm b (some lat) (some long) rmc now inow).broadcast =
        some (String.join (s.fragments ++ [line])) ↔
      (check_last_sent cfg.interval inow s.last_sent pm).1 = true := by
  simp only [classified_step]
  rw [if_pos h]
  split_ifs <;> simp_all

theorem classified_step_location_iff (cfg : Config) (s : WorkState) (line : String)
    (pm : ParsedMessage) (b : Bool) (olat olong : Option ℚ) (rmc now inow : Nat) :
    ((classified_step cfg s line pm b olat olong rmc now inow).location.isSome =
      emission_expected s (some b) olat olong now)
    ∧ (emission_expected s (some b) olat olong now = true →
        (classified_step cfg s line pm b olat olong rmc now inow).location = some pm
        ∧ (classified_step cfg s line pm b olat olong rmc now inow).state.prev_lat =
            olat.getD 0
        ∧ (classified_step cfg s line pm b olat olong rmc now inow).state.prev_long =
            olong.getD 0
        ∧ (classified_step cfg s line pm b olat olong rmc
            now inow).state.last_sent_location = now
        ∧ (classified_step cfg s line pm b olat olong rmc now inow).state.next_location_ts
            = next_location_system_time cfg.location_interval now
        ∧ (classified_step cfg s line pm b olat olong rmc
            now inow).state.next_location_anchor_ts
            = next_location_anchor_system_time cfg.location_anchor_interval now) := by
  rcases olat with _ | lat
  · cases b <;>
      exact ⟨rfl, fun hemit => by simp [emission_expected] at hemit⟩
  rcases olong with _ | long
  · cases b <;>
      exact ⟨rfl, fun hemit => by simp [emission_expected] at hemit⟩
  cases b <;> constructor
  · simp only [classified_step, emission_expected]
    split_ifs <;> simp_all
  · intro hemit
    simp [emission_expected] at hemit
  · simp only [classified_step, emission_expected]
    split_ifs <;>
      simp_all [is_moving, Bool.or_eq_true, Bool.and_eq_true, decide_eq_true_eq]
  · intro hemit
    simp only [emission_expected, Bool.and_eq_true, Bool.or_eq_true,
      decide_eq_true_eq] at hemit
    simp only [classified_step]
    split_ifs <;>
      first
        | exact ⟨rfl, rfl, rfl, rfl, rfl, rfl⟩
        | (exfalso
           simp_all [is_moving, Bool.or_eq_true, Bool.and_eq_true, decide_eq_true_eq])

theorem broadcast_ais_failure (key : String) (post : List (String × Bool)) :
    ∀ pre : List (String × Bool), (∀ p ∈ pre, p.2 = true) →
      broadcast_ais (pre ++ (key, false) :: post) =
        (pre.map Prod.fst ++ [key], Except.error key) := by
  intro pre
  induction pre with
  | nil => intro _; rfl
  | cons p rest ih =>
      intro hpre
      have hp : p.2 = true := hpre p (List.mem_cons_self p rest)
      have ih2 := ih (fun q hq => hpre q (List.mem_cons_of_mem p hq))
      rcases p with ⟨k1, ok1⟩
      simp only at hp
      subst hp
      simp only [List.cons_append, broadcast_ais, if_true, List.map_cons,
        List.append_eq, ih2]

/-! Claims -/

/-- C6: whenever the cadence deadlines are recomputed, each deadline equals,
in whole seconds since the Unix epoch, `(now + interval) - ((now + interval)
% interval)`, for the regular and the anchor interval alike; both deadlines
are therefore multiples of their interval length. -/
theorem c6_deadline_grid_alignment (location_interval location_anchor_interval now : Nat) :
    next_location_system_time location_interval now =
      ((now / NANOS + location_interval) -
        (now / NANOS + location_interval) % location_interval) * NANOS
    ∧ (next_location_system_time location_interval now / NANOS) % location_interval = 0
    ∧ next_location_anchor_system_time location_anchor_interval now =
      ((now / NANOS + location_anchor_interval) -
        (now / NANOS + location_anchor_interval) % location_anchor_interval) * NANOS
    ∧ (next_location_anchor_system_time location_anchor_interval now / NANOS) %
        location_anchor_interval = 0 := by
  refine ⟨next_location_system_time_eq _ _, ?_,
    next_location_anchor_system_time_eq _ _, ?_⟩
  · rw [next_location_system_time_eq, nanos_mul_div]
    exact floor_to_grid_mod _ _
  · rw [next_location_anchor_system_time_eq, nanos_mul_div]
    exact floor_to_grid_mod _ _

/-- C10: the deadline computations are total only for a positive interval:
the source computes a remainder modulo the interval, and `u64 % 0` panics,
so with interval 0 (accepted by the configuration parser, since any `u64`
string parses) the operation aborts (modelled as `none`) instead of
returning a deadline; for every positive interval a deadline is returned. -/
theorem c10_deadline_requires_positive_interval :
    (∀ now, next_location_system_time_checked 0 now = none)
    ∧ (∀ now, next_location_anchor_system_time_checked 0 now = none)
    ∧ (∀ i now, 0 < i →
        next_location_system_time_checked i now = some (next_location_system_time i now))
    ∧ (∀ i now, 0 < i →
        next_location_anchor_system_time_checked i now =
          some (next_location_anchor_system_time i now)) := by
  refine ⟨fun _ => rfl, fun _ => rfl, ?_, ?_⟩ <;>
  · intro i now hi
    simp [next_location_system_time_checked, next_location_anchor_system_time_checked,
      Nat.pos_iff_ne_zero.mp hi]

/-- Witness for C10 at interval 0 and interval 600. -/
theorem c10_deadline_requires_positive_interval_witness :
    next_location_system_time_checked 0 12345 = none
    ∧ 0 < 600
    ∧ next_location_system_time_checked 600 12345 =
        some (next_location_system_time 600 12345) :=
  ⟨c10_deadline_requires_positive_interval.1 12345, by decide,
    c10_deadline_requires_positive_interval.2.2.1 600 12345 (by decide)⟩

/-- C7: the position of a message is attributed to the own vessel iff it is an
`Rmc` fix (always own-vessel, recording the time it was seen) or a
`VesselDynamicData` whose own-vessel flag is set while an `Rmc`-category
message was seen within the last 30 seconds of wall-clock time (strictly
less than 30 s ago); static and unclassified messages are never
attributed. -/
theorem c7_own_vessel_attribution (last_seen_rmc_message now : Nat)
    (d : VesselDynamicData) (sd : VesselStaticData) (r : RmcData) :
    (classify_message last_seen_rmc_message now (.Rmc r)).1 = some true
    ∧ (classify_message last_seen_rmc_message now (.Rmc r)).2.2.2 = now
    ∧ ((classify_message last_seen_rmc_message now (.VesselDynamicData d)).1 = some true
        ↔ (d.own_vessel = true ∧ now < last_seen_rmc_message + 30 * NANOS))
    ∧ (classify_message last_seen_rmc_message now (.VesselStaticData sd)).1 = some false
    ∧ (classify_message last_seen_rmc_message now .Other).1 = none
    ∧ (classify_message last_seen_rmc_message now .Incomplete).1 = none := by
  refine ⟨rfl, rfl, ?_, rfl, rfl, rfl⟩
  simp [classify_message, Bool.and_eq_true, and_comm]

/-- C3 (code evaluation): `VesselStaticData` is classified with no position
(`main.rs` 309), so the position gate in `work` filters it before the rate
limiter: a static-data message is never broadcast, never reaches
`check_last_sent` (the table is untouched) and never triggers a cadence
emission — even though `check_last_sent` itself, were it reached, would
report the first static-data message for a fresh MMSI as eligible (that
branch of `check_last_sent` is unreachable from `work`). -/
theorem c3_static_data_never_broadcast :
    (∀ (cfg : Config) (s : WorkState) (line : String) (d : VesselStaticData)
        (now inow : Nat),
      (work_step cfg s line (.ok (.VesselStaticData d)) now inow).broadcast = none
      ∧ (work_step cfg s line (.ok (.VesselStaticData d)) now inow).state.last_sent
          = s.last_sent
      ∧ (work_step cfg s line (.ok (.VesselStaticData d)) now inow).location = none)
    ∧ (check_last_sent 60 (100 * NANOS) empty_table (.VesselStaticData ⟨123⟩)).1 = true := by
  refine ⟨?_, by decide⟩
  intro cfg s line d now inow
  exact ⟨rfl, rfl, rfl⟩

/-- C4: for every `VesselDynamicData` message the rate limiter looks up (or
creates, with both timestamps backdated by exactly one configured interval)
the record for the vessel identity, returns eligible iff the elapsed time
since the dynamic-category timestamp is at least the configured interval,
and updates that timestamp exactly when it returns eligible; symmetrically
for `VesselStaticData` against the static-category timestamp.  With
interval 60 s, two dynamic messages 59 s apart yield exactly one eligible
verdict and two messages 61 s apart yield two. -/
theorem c4_rate_limiter_semantics (interval inow : Nat)
    (table : Nat → Option LastSent) (d : VesselDynamicData) (sd : VesselStaticData)
    (hback : interval * NANOS ≤ inow) :
    ((check_last_sent interval inow table (.VesselDynamicData d)).1 = true ↔
      interval * NANOS ≤
        inow - (lookup_or_backdate interval inow table d.mmsi).vessel_dynamic_data)
    ∧ (check_last_sent interval inow table (.VesselDynamicData d)).2 d.mmsi =
        some { lookup_or_backdate interval inow table d.mmsi with
          vessel_dynamic_data :=
            if (check_last_sent interval inow table (.VesselDynamicData d)).1 then inow
            else (lookup_or_backdate interval inow table d.mmsi).vessel_dynamic_data }
    ∧ (table d.mmsi = none →
        inow - (lookup_or_backdate interval inow table d.mmsi).vessel_dynamic_data =
          interval * NANOS
        ∧ inow - (lookup_or_backdate interval inow table d.mmsi).vessel_static_data =
          interval * NANOS)
    ∧ ((check_last_sent interval inow table (.VesselStaticData sd)).1 = true ↔
      interval * NANOS ≤
        inow - (lookup_or_backdate interval inow table sd.mmsi).vessel_static_data)
    ∧ (check_last_sent interval inow table (.VesselStaticData sd)).2 sd.mmsi =
        some { lookup_or_backdate interval inow table sd.mmsi with
          vessel_static_data :=
            if (check_last_sent interval inow table (.VesselStaticData sd)).1 then inow
            else (lookup_or_backdate interval inow table sd.mmsi).vessel_static_data }
    ∧ (table sd.mmsi = none →
        inow - (lookup_or_backdate interval inow table sd.mmsi).vessel_static_data =
          interval * NANOS
        ∧ inow - (lookup_or_backdate interval inow table sd.mmsi).vessel_dynamic_data =
          interval * NANOS)
    ∧ two_dynamic_59s_apart = (true, false)
    ∧ two_dynamic_61s_apart = (true, true) := by
  refine ⟨?_, ?_, ?_, ?_, ?_, ?_, by decide, by decide⟩
  · rw [check_last_sent_dynamic_eq]
    simp [interval_le_div_nanos_iff]
  · rw [check_last_sent_dynamic_eq]
    simp
  · intro hnone
    simp only [lookup_or_backdate, hnone, Option.getD_none]
    omega
  · rw [check_last_sent_static_eq]
    simp [interval_le_div_nanos_iff]
  · rw [check_last_sent_static_eq]
    simp
  · intro hnone
    simp only [lookup_or_backdate, hnone, Option.getD_none]
    omega

/-- Witness for C4 at interval 60 s, `inow` 200 s, a table holding a record
for MMSI 5. -/
theorem c4_rate_limiter_semantics_witness :
    60 * NANOS ≤ 200 * NANOS
    ∧ ((check_last_sent 60 (200 * NANOS) sample_table
          (.VesselDynamicData ⟨5, none, none, false⟩)).1 = true ↔
        60 * NANOS ≤ 200 * NANOS -
          (lookup_or_backdate 60 (200 * NANOS) sample_table 5).vessel_dynamic_data) :=
  ⟨by decide,
    (c4_rate_limiter_semantics 60 (200 * NANOS) sample_table
      ⟨5, none, none, false⟩ ⟨5⟩ (by decide)).1⟩

/-- C8: dynamic-data and static-data eligibility are tracked independently
per vessel identity: a check in one category rewrites only the timestamp of that category
in the record (updating it exactly when eligible), leaving the timestamp
of the other category of the same record and all other records
unchanged. -/
theorem c8_category_independence (interval inow : Nat) (table : Nat → Option LastSent)
    (d : VesselDynamicData) (sd : VesselStaticData) (rd rs : LastSent)
    (hd : table d.mmsi = some rd) (hs : table sd.mmsi = some rs) :
    (check_last_sent interval inow table (.VesselDynamicData d)).2 d.mmsi =
      some { rd with vessel_dynamic_data :=
        if interval ≤ (inow - rd.vessel_dynamic_data) / NANOS then inow
        else rd.vessel_dynamic_data }
    ∧ (∀ k, k ≠ d.mmsi →
        (check_last_sent interval inow table (.VesselDynamicData d)).2 k = table k)
    ∧ (check_last_sent interval inow table (.VesselStaticData sd)).2 sd.mmsi =
      some { rs with vessel_static_data :=
        if interval ≤ (inow - rs.vessel_static_data) / NANOS then inow
        else rs.vessel_static_data }
    ∧ (∀ k, k ≠ sd.mmsi →
        (check_last_sent interval inow table (.VesselStaticData sd)).2 k = table k) := by
  refine ⟨?_, ?_, ?_, ?_⟩
  · rw [check_last_sent_dynamic_eq]
    simp [lookup_or_backdate, hd]
  · intro k hk
    rw [check_last_sent_dynamic_eq]
    simp [hk]
  · rw [check_last_sent_static_eq]
    simp [lookup_or_backdate, hs]
  · intro k hk
    rw [check_last_sent_static_eq]
    simp [hk]

/-- Witness for C8 at MMSI 5 in `sample_table`, checking MMSI 6 as the
untouched other key. -/
theorem c8_category_independence_witness :
    sample_table 5 = some ⟨40 * NANOS, 50 * NANOS⟩
    ∧ (check_last_sent 60 (200 * NANOS) sample_table
        (.VesselDynamicData ⟨5, none, none, false⟩)).2 5 =
      some ⟨if 60 ≤ (200 * NANOS - 40 * NANOS) / NANOS then 200 * NANOS else 40 * NANOS,
        50 * NANOS⟩
    ∧ (check_last_sent 60 (200 * NANOS) sample_table
        (.VesselDynamicData ⟨5, none, none, false⟩)).2 6 = sample_table 6 :=
  ⟨rfl,
    (c8_category_independence 60 (200 * NANOS) sample_table ⟨5, none, none, false⟩ ⟨5⟩
      ⟨40 * NANOS, 50 * NANOS⟩ ⟨40 * NANOS, 50 * NANOS⟩ rfl rfl).1,
    (c8_category_independence 60 (200 * NANOS) sample_table ⟨5, none, none, false⟩ ⟨5⟩
      ⟨40 * NANOS, 50 * NANOS⟩ ⟨40 * NANOS, 50 * NANOS⟩ rfl rfl).2.1 6 (by decide)⟩

/-- C2 counterexample: with a fragment already buffered, a complete but
unclassified message (`Other`) leaves the fragment buffer untouched — the
raw line is not appended and the buffer is not empty after the message is
processed — contradicting the claim for "any variant other than
Incomplete". -/
theorem c2_counterexample :
    (work_step cfg0 sample_state "line2" (.ok .Other) 0 0).state.fragments =
      ["!AIVDM,2,1,frag"]
    ∧ ParsedMessage.Other ≠ ParsedMessage.Incomplete
    ∧ (["!AIVDM,2,1,frag"] : List String) ≠ []
    ∧ (["!AIVDM,2,1,frag"] : List String) ≠ sample_state.fragments ++ ["line2"] :=
  ⟨rfl, by decide, by decide, by decide⟩

/-- C2 (amended): a line whose parse fails empties the fragment buffer; a
complete message classified as `VesselDynamicData`, `VesselStaticData` or
`Rmc` (the variants the attribution pattern accepts) has its raw line
appended and the buffer is empty after it is processed, the raw byte
sequence offered for retransmission being the separator-free concatenation
of all buffered lines in arrival order; a complete message of any other
variant leaves the buffer untouched (the line is neither appended nor
cleared). -/
theorem c2_amended_reassembly (cfg : Config) (s : WorkState) (line : String)
    (pm : ParsedMessage) (now inow : Nat) (e : Unit) :
    (work_step cfg s line (.error e) now inow).state.fragments = []
    ∧ ((classify_message s.last_seen_rmc_message now pm).1.isSome = true →
        (work_step cfg s line (.ok pm) now inow).state.fragments = []
        ∧ ((work_step cfg s line (.ok pm) now inow).broadcast = none
          ∨ (work_step cfg s line (.ok pm) now inow).broadcast =
              some (String.join (s.fragments ++ [line]))))
    ∧ (work_step cfg s line (.ok .Other) now inow).state.fragments = s.fragments := by
  refine ⟨rfl, ?_, rfl⟩
  intro hcl
  cases pm with
  | VesselDynamicData d =>
      rw [work_step_dynamic_eq]
      exact ⟨classified_step_fragments_empty .., classified_step_broadcast_shape ..⟩
  | VesselStaticData sd =>
      rw [work_step_static_eq]
      exact ⟨classified_step_fragments_empty .., classified_step_broadcast_shape ..⟩
  | Rmc r =>
      rw [work_step_rmc_eq]
      exact ⟨classified_step_fragments_empty .., classified_step_broadcast_shape ..⟩
  | Incomplete => simp [classify_message] at hcl
  | Other => simp [classify_message] at hcl

/-- Witness for C2 (amended) on a classified dynamic-data message with one
buffered fragment. -/
theorem c2_amended_reassembly_witness :
    (classify_message sample_state.last_seen_rmc_message 0 sample_dyn).1.isSome = true
    ∧ ((work_step cfg0 sample_state "line2" (.ok sample_dyn) 0 0).state.fragments = []
      ∧ ((work_step cfg0 sample_state "line2" (.ok sample_dyn) 0 0).broadcast = none
        ∨ (work_step cfg0 sample_state "line2" (.ok sample_dyn) 0 0).broadcast =
            some (String.join (sample_state.fragments ++ ["line2"])))) :=
  ⟨rfl, (c2_amended_reassembly cfg0 sample_state "line2" sample_dyn 0 0 ()).2.1 rfl⟩

/-- C9: a decoded message whose position is absent or exactly (0, 0) causes
no rate-limit fan-out (nothing is broadcast and the rate-limiter table is
untouched) and no cadence location emission, regardless of all other
conditions; a message carrying a position with at least one non-zero
coordinate is not discarded by this check — it is broadcast exactly when
the rate limiter reports it eligible. -/
theorem c9_zero_position_filtered (cfg : Config) (s : WorkState) (line : String)
    (pm : ParsedMessage) (now inow : Nat) :
    ((classify_message s.last_seen_rmc_message now pm).2.1 = none
      ∨ (classify_message s.last_seen_rmc_message now pm).2.2.1 = none
      ∨ ((classify_message s.last_seen_rmc_message now pm).2.1 = some 0
        ∧ (classify_message s.last_seen_rmc_message now pm).2.2.1 = some 0) →
      (work_step cfg s line (.ok pm) now inow).broadcast = none
      ∧ (work_step cfg s line (.ok pm) now inow).location = none
      ∧ (work_step cfg s line (.ok pm) now inow).state.last_sent = s.last_sent)
    ∧ (∀ lat long : ℚ,
        (classify_message s.last_seen_rmc_message now pm).2.1 = some lat →
        (classify_message s.last_seen_rmc_message now pm).2.2.1 = some long →
        (lat ≠ 0 ∨ long ≠ 0) →
        ((work_step cfg s line (.ok pm) now inow).broadcast =
            some (String.join (s.fragments ++ [line])) ↔
          (check_last_sent cfg.interval inow s.last_sent pm).1 = true)) := by
  constructor
  · intro h
    cases pm with
    | Incomplete => exact ⟨rfl, rfl, rfl⟩
    | Other => exact ⟨rfl, rfl, rfl⟩
    | VesselDynamicData d =>
        rw [work_step_dynamic_eq]
        exact classified_step_no_position _ _ _ _ _ _ _ _ _ _ h
    | VesselStaticData sd =>
        rw [work_step_static_eq]
        exact classified_step_no_position _ _ _ _ _ _ _ _ _ _ (Or.inl rfl)
    | Rmc r =>
        rw [work_step_rmc_eq]
        exact classified_step_no_position _ _ _ _ _ _ _ _ _ _ h
  · intro lat long hlat hlong hnz
    cases pm with
    | Incomplete => simp [classify_message] at hlat
    | Other => simp [classify_message] at hlat
    | VesselStaticData sd => simp [classify_message] at hlat
    | VesselDynamicData d =>
        have hlat2 : d.latitude = some lat := hlat
        have hlong2 : d.longitude = some long := hlong
        rw [work_step_dynamic_eq, hlat2, hlong2]
        exact classified_step_position_broadcast _ _ _ _ _ _ _ _ _ _ hnz
    | Rmc r =>
        have hlat2 : r.latitude = some lat := hlat
        have hlong2 : r.longitude = some long := hlong
        rw [work_step_rmc_eq, hlat2, hlong2]
        exact classified_step_position_broadcast _ _ _ _ _ _ _ _ _ _ hnz

/-- Witness for C9: a dynamic-data message at (0, 0) is filtered; the same
message at (1, 2) reaches the rate limiter. -/
theorem c9_zero_position_filtered_witness :
    ((ParsedMessage.VesselDynamicData ⟨7, some 0, some 0, false⟩ : ParsedMessage) ≠
      sample_dyn)
    ∧ ((work_step cfg0 sample_state "l"
        (.ok (.VesselDynamicData ⟨7, some 0, some 0, false⟩)) 0 0).broadcast = none
      ∧ (work_step cfg0 sample_state "l"
          (.ok (.VesselDynamicData ⟨7, some 0, some 0, false⟩)) 0 0).location = none
      ∧ (work_step cfg0 sample_state "l"
          (.ok (.VesselDynamicData ⟨7, some 0, some 0, false⟩)) 0 0).state.last_sent =
        sample_state.last_sent)
    ∧ ((work_step cfg0 sample_state "l" (.ok sample_dyn) 0 0).broadcast =
          some (String.join (sample_state.fragments ++ ["l"])) ↔
        (check_last_sent cfg0.interval 0 sample_state.last_sent sample_dyn).1 = true) :=
  ⟨by decide,
    (c9_zero_position_filtered cfg0 sample_state "l"
      (.VesselDynamicData ⟨7, some 0, some 0, false⟩) 0 0).1
      (Or.inr (Or.inr ⟨rfl, rfl⟩)),
    (c9_zero_position_filtered cfg0 sample_state "l" sample_dyn 0 0).2 1 2 rfl rfl
      (by decide)⟩

/-- C5: an own-vessel location update is sent on the Location Reporter
channel exactly when a valid (non-(0,0)) own-vessel-attributed position is
processed and either now has reached the anchor deadline, or now has
reached the regular deadline and the vessel is moving — where moving means
the absolute change in latitude or longitude relative to the last emitted
position exceeds 0.001 degree in either axis (`emission_expected` is the
spec-side rule); on emission the last-emitted position, the emission
timestamp and both deadlines are updated. -/
theorem c5_location_emission_rule (cfg : Config) (s : WorkState) (line : String)
    (pm : ParsedMessage) (now inow : Nat) :
    ((work_step cfg s line (.ok pm) now inow).location.isSome =
      emission_expected s (classify_message s.last_seen_rmc_message now pm).1
        (classify_message s.last_seen_rmc_message now pm).2.1
        (classify_message s.last_seen_rmc_message now pm).2.2.1 now)
    ∧ (emission_expected s (classify_message s.last_seen_rmc_message now pm).1
        (classify_message s.last_seen_rmc_message now pm).2.1
        (classify_message s.last_seen_rmc_message now pm).2.2.1 now = true →
        (work_step cfg s line (.ok pm) now inow).location = some pm
        ∧ (work_step cfg s line (.ok pm) now inow).state.prev_lat =
            ((classify_message s.last_seen_rmc_message now pm).2.1).getD 0
        ∧ (work_step cfg s line (.ok pm) now inow).state.prev_long =
            ((classify_message s.last_seen_rmc_message now pm).2.2.1).getD 0
        ∧ (work_step cfg s line (.ok pm) now inow).state.last_sent_location = now
        ∧ (work_step cfg s line (.ok pm) now inow).state.next_location_ts =
            next_location_system_time cfg.location_interval now
        ∧ (work_step cfg s line (.ok pm) now inow).state.next_location_anchor_ts =
            next_location_anchor_system_time cfg.location_anchor_interval now) := by
  cases pm with
  | Incomplete =>
      refine ⟨rfl, fun hemit => ?_⟩
      simp [classify_message, emission_expected] at hemit
  | Other =>
      refine ⟨rfl, fun hemit => ?_⟩
      simp [classify_message, emission_expected] at hemit
  | VesselDynamicData d =>
      exact classified_step_location_iff cfg s line (.VesselDynamicData d)
        (decide (now < s.last_seen_rmc_message + 30 * NANOS) && d.own_vessel)
        d.latitude d.longitude s.last_seen_rmc_message now inow
  | VesselStaticData sd =>
      exact classified_step_location_iff cfg s line (.VesselStaticData sd)
        false none none s.last_seen_rmc_message now inow
  | Rmc r =>
      exact classified_step_location_iff cfg s line (.Rmc r)
        true r.latitude r.longitude now now inow

/-- Witness for C5: an RMC fix at (1, 2) with both deadlines in the past is
emitted and updates the cadence state. -/
theorem c5_location_emission_rule_witness :
    emission_expected sample_state
      (classify_message sample_state.last_seen_rmc_message 1000 sample_rmc).1
      (classify_message sample_state.last_seen_rmc_message 1000 sample_rmc).2.1
      (classify_message sample_state.last_seen_rmc_message 1000 sample_rmc).2.2.1 1000
      = true
    ∧ ((work_step cfg0 sample_state "l" (.ok sample_rmc) 1000 0).location =
          some sample_rmc
      ∧ (work_step cfg0 sample_state "l" (.ok sample_rmc) 1000 0).state.prev_lat = 1
      ∧ (work_step cfg0 sample_state "l" (.ok sample_rmc) 1000 0).state.prev_long = 2
      ∧ (work_step cfg0 sample_state "l"
          (.ok sample_rmc) 1000 0).state.last_sent_location = 1000
      ∧ (work_step cfg0 sample_state "l" (.ok sample_rmc) 1000 0).state.next_location_ts
          = next_location_system_time cfg0.location_interval 1000
      ∧ (work_step cfg0 sample_state "l"
          (.ok sample_rmc) 1000 0).state.next_location_anchor_ts
          = next_location_anchor_system_time cfg0.location_anchor_interval 1000) :=
  ⟨rfl, (c5_location_emission_rule cfg0 sample_state "l" sample_rmc 1000 0).2 rfl⟩

/-- C1 counterexample: with two configured endpoints where the send to the
first one fails, `broadcast_ais` stops before the second endpoint (the `?`
inside its `for` loop) and `dispatch_line` propagates the error out of the
dispatch loop, which therefore does not continue — contradicting the claim
that per-endpoint failures never prevent delivery to the remaining
endpoints and are recovered locally. -/
theorem c1_counterexample :
    (broadcast_ais [("alpha", false), ("beta", true)]).1 = ["alpha"]
    ∧ (broadcast_ais [("alpha", false), ("beta", true)]).2 = Except.error "alpha"
    ∧ dispatch_line cfg0 [("alpha", false), ("beta", true)] sample_state "l"
        (.ok sample_dyn) (100 * NANOS) (100 * NANOS) = Except.error "alpha" :=
  ⟨rfl, rfl, rfl⟩

/-- C1 (amended): a delivery failure on one endpoint prevents delivery
attempts to every endpoint after it in the fan-out iteration order for that
message (endpoints before it are attempted), and the failure is not
recovered locally: it propagates out of the main dispatch loop, which
terminates (`main` then rebuilds the whole dispatcher after a one-second
pause). -/
theorem c1_amended_fanout_aborts (pre : List (String × Bool)) (key : String)
    (post : List (String × Bool)) (cfg : Config) (s : WorkState) (line : String)
    (parsed : Except Unit ParsedMessage) (now inow : Nat)
    (hpre : ∀ p ∈ pre, p.2 = true)
    (hsome : (work_step cfg s line parsed now inow).broadcast.isSome = true) :
    broadcast_ais (pre ++ (key, false) :: post) =
      (pre.map Prod.fst ++ [key], Except.error key)
    ∧ dispatch_line cfg (pre ++ (key, false) :: post) s line parsed now inow =
        Except.error key := by
  have hb := broadcast_ais_failure key post pre hpre
  refine ⟨hb, ?_⟩
  obtain ⟨raw, hraw⟩ := Option.isSome_iff_exists.mp hsome
  simp only [dispatch_line, hraw, hb]

/-- Witness for C1 (amended): endpoint `b` fails; the fan-out never reaches
endpoint `c` and the line-dispatch errors out. -/
theorem c1_amended_fanout_aborts_witness :
    broadcast_ais [("b", false), ("c", true)] = (["b"], Except.error "b")
    ∧ dispatch_line cfg0 [("b", false), ("c", true)] sample_state "l"
        (.ok sample_dyn) (100 * NANOS) (100 * NANOS) = Except.error "b" :=
  c1_amended_fanout_aborts [] "b" [("c", true)] cfg0 sample_state "l"
    (.ok sample_dyn) (100 * NANOS) (100 * NANOS) (by simp) rfl

end AisForwarder
